import Mathlib

/-!
# Verification of the Cetus hedge bot core (`cetus_hedge.py`)

Shallow embedding of the bot's pure logic over exact rationals (`ℚ` stands
for Python floats, so the algebra is exact) with external effects supplied
explicitly: every network call result (price fetches, pool and venue
submissions) is an input, and side effects are recorded as an event trace.

Methods that the source calls but never defines (`remove_liquidity`,
`close_hedge_position`, `initialize_position`, `send_alert`,
`get_pool_position`) are modelled from the spec and marked as such.
-/

namespace CetusHedge

/-- Python `int()` conversion: truncation toward zero. -/
def pyInt (q : ℚ) : ℤ := if 0 ≤ q then ⌊q⌋ else ⌈q⌉

/-- The configuration values the core reads (`config['strategy']`,
`config['tokens']`, slippage tolerance from the configuration surface). -/
structure Config where
  base_amount : ℚ
  price_range : ℚ
  rebalance_threshold : ℚ
  slippage_tolerance : ℚ
  sui_decimals : ℕ
  usdc_decimals : ℕ
  check_interval : ℕ
deriving DecidableEq

/-- Position status, from the spec's data model (the source keeps
`current_position` as a plain dict and never stores a status; the field is
written only by the spec-modelled `init_position`). -/
inductive PStatus where
  | Uninit
  | Active
  | Rebalancing
  | Faulted
deriving DecidableEq

/-- The current position record (`self.current_position`): the source reads
keys `lower_price` and `upper_price`; amounts, hedge ref and status follow
the spec's Position data model. -/
structure PositionRec where
  lower_price : ℚ
  upper_price : ℚ
  sui_amount : ℚ
  usdc_amount : ℚ
  hedge_ref : Option String
  status : PStatus
deriving DecidableEq

/-- Observable events of one control-flow execution: external calls and
alerts, in the order the code makes them. -/
inductive Event where
  | fetchPrice (p : ℚ)
  | removeLiquidity
  | closeHedge
  | initPosition
  | addLiquidityCall
  | openShort
  | report
  | alert (msg : String)
deriving DecidableEq

/-- Results of the external world for one iteration: the price returned by
each `get_sui_price()` call site and the outcome of each submission. -/
structure Env where
  check_price : ℚ
  rebalance_price : ℚ
  init_price : ℚ
  remove_liquidity_result : Except String Unit
  close_hedge_result : Except String Unit
  add_liquidity_result : Except String Unit
  open_short_result : Except String String

/-- `calculate_swap_amounts` (lines 36-43): splits the configured capital
50/50 by value at the current price.  `current_price` is the value returned
by the `get_sui_price()` call inside the method; Python float division by
zero raises, every other input produces a result unchecked. -/
def calculate_swap_amounts (cfg : Config) (current_price : ℚ) :
    Except String (ℚ × ℚ) :=
  if current_price = 0 then
    Except.error "ZeroDivisionError"
  else
    Except.ok ((cfg.base_amount * (1 / 2)) / current_price,
               cfg.base_amount * (1 / 2))

/-- The arguments `add_liquidity` (lines 45-67) passes to the Cetus
`pool::add_liquidity` move call. -/
structure AddLiquidityCall where
  sui_scaled : ℤ
  usdc_scaled : ℤ
  lower_tick : ℚ
  upper_tick : ℚ
  slippage : ℚ
deriving DecidableEq

/-- `add_liquidity` (lines 45-67): scales each amount by `10^decimals` with
Python `int()` truncation and submits the move call; the slippage argument
is the literal `txer.pure(0)` of line 61. -/
def add_liquidity (cfg : Config) (sui_amount usdc_amount lower_tick upper_tick : ℚ) :
    AddLiquidityCall :=
  { sui_scaled := pyInt (sui_amount * 10 ^ cfg.sui_decimals)
    usdc_scaled := pyInt (usdc_amount * 10 ^ cfg.usdc_decimals)
    lower_tick := lower_tick
    upper_tick := upper_tick
    slippage := 0 }

/-- `execute_hedge` (lines 74-84): places the short market order; on any
exception it sends an alert and falls through, returning `None`.
`order_result` is the outcome of `binance.create_market_sell_order`; the
second component is the list of alerts sent. -/
def execute_hedge (order_result : Except String String) :
    Option String × List String :=
  match order_result with
  | Except.ok oid => (some oid, [])
  | Except.error e => (none, ["对冲订单失败: " ++ e])

/-- `check_rebalance_condition` (lines 86-96): drift check against inward
thresholds from each range boundary.  `current_price` is the value of the
`get_sui_price()` call inside the method. -/
def check_rebalance_condition (cfg : Config) (pos : PositionRec)
    (current_price : ℚ) : Bool :=
  let lower_threshold := pos.lower_price * (1 + cfg.rebalance_threshold)
  let upper_threshold := pos.upper_price * (1 - cfg.rebalance_threshold)
  decide (current_price ≤ lower_threshold) ||
    decide (upper_threshold ≤ current_price)

/-- The range computation of `rebalance_position` step 2 (lines 104-106). -/
def compute_new_range (cfg : Config) (current_price : ℚ) : ℚ × ℚ :=
  (current_price * (1 - cfg.price_range),
   current_price * (1 + cfg.price_range))

/-- Modelled from the spec: `initialize_position` is called by
`rebalance_position` (line 112) and `main_loop` (line 135) but has no
definition in the source.  Spec §4.4: it reads the current price, computes
the range and amounts with the full configured capital via the range
calculator, submits the pool deposit, then opens the hedge short (the
source's `execute_hedge`); on success it writes a new Position with status
Active; if the deposit succeeds but the hedge open fails the position
enters Faulted with the pool leg recorded and no hedge ref, surfaced as an
alert. -/
def init_position (cfg : Config) (env : Env) :
    Except String PositionRec × List Event :=
  match calculate_swap_amounts cfg env.init_price with
  | Except.error e =>
      (Except.error e, [Event.initPosition, Event.fetchPrice env.init_price])
  | Except.ok (sui_amt, usdc_amt) =>
    match env.add_liquidity_result with
    | Except.error e =>
        (Except.error e,
         [Event.initPosition, Event.fetchPrice env.init_price,
          Event.addLiquidityCall])
    | Except.ok _ =>
      match execute_hedge env.open_short_result with
      | (some ref, _) =>
          (Except.ok
            { lower_price := env.init_price * (1 - cfg.price_range)
              upper_price := env.init_price * (1 + cfg.price_range)
              sui_amount := sui_amt
              usdc_amount := usdc_amt
              hedge_ref := some ref
              status := PStatus.Active },
           [Event.initPosition, Event.fetchPrice env.init_price,
            Event.addLiquidityCall, Event.openShort])
      | (none, alerts) =>
          (Except.ok
            { lower_price := env.init_price * (1 - cfg.price_range)
              upper_price := env.init_price * (1 + cfg.price_range)
              sui_amount := sui_amt
              usdc_amount := usdc_amt
              hedge_ref := none
              status := PStatus.Faulted },
           [Event.initPosition, Event.fetchPrice env.init_price,
            Event.addLiquidityCall, Event.openShort]
             ++ alerts.map Event.alert)

/-- `rebalance_position` (lines 98-112): (1) withdraw liquidity, (2) fetch
the price and compute `new_lower`/`new_upper` (bound but never used, exactly
as in the source), (3) close the old short, (4) call the recreation step
with no arguments.  A failing step raises: the error propagates and no later
step runs.  The teardown calls `remove_liquidity`/`close_hedge_position` are
absent from the source and modelled from the spec as submissions that either
succeed or fail (`env` carries the outcome). -/
def rebalance_position (cfg : Config) (env : Env) (pos : PositionRec) :
    Except String PositionRec × List Event :=
  match env.remove_liquidity_result with
  | Except.error e => (Except.error e, [Event.removeLiquidity])
  | Except.ok _ =>
    let current_price := env.rebalance_price
    let new_lower := current_price * (1 - cfg.price_range)
    let new_upper := current_price * (1 + cfg.price_range)
    match env.close_hedge_result with
    | Except.error e =>
        (Except.error e,
         [Event.removeLiquidity, Event.fetchPrice current_price,
          Event.closeHedge])
    | Except.ok _ =>
      match init_position cfg env with
      | (Except.error e, evs) =>
          (Except.error e,
           [Event.removeLiquidity, Event.fetchPrice current_price,
            Event.closeHedge] ++ evs)
      | (Except.ok pos', evs) =>
          (Except.ok pos',
           [Event.removeLiquidity, Event.fetchPrice current_price,
            Event.closeHedge] ++ evs)

/-- One iteration of `main_loop` (lines 136-152) for an existing position:
run the drift check, rebalance when it fires, then report; any exception
raised inside the `try` block is caught, alerted as `系统错误: ...`, and the
position record is left as it was.  `generate_report` is modelled from the
spec as a read-only step (`Event.report`). -/
def main_loop_iter (cfg : Config) (env : Env) (pos : PositionRec) :
    PositionRec × List Event :=
  if check_rebalance_condition cfg pos env.check_price then
    match rebalance_position cfg env pos with
    | (Except.ok pos', evs) =>
        (pos', Event.fetchPrice env.check_price :: evs ++ [Event.report])
    | (Except.error e, evs) =>
        (pos, Event.fetchPrice env.check_price :: evs
                ++ [Event.alert ("系统错误: " ++ e)])
  else
    (pos, [Event.fetchPrice env.check_price, Event.report])

/-! ## Concrete fixtures (the spec's §8 scenario: price 1.00, capital 1000,
range fraction 0.05, threshold 0.01) -/

def cfgC : Config :=
  { base_amount := 1000
    price_range := 1 / 20
    rebalance_threshold := 1 / 100
    slippage_tolerance := 1 / 100
    sui_decimals := 9
    usdc_decimals := 6
    check_interval := 60 }

def posC : PositionRec :=
  { lower_price := 19 / 20
    upper_price := 21 / 20
    sui_amount := 500
    usdc_amount := 500
    hedge_ref := some "ord0"
    status := PStatus.Active }

/-- A world where the liquidity withdrawal (rebalance step 1) fails. -/
def envFail1 : Env :=
  { check_price := 26 / 25
    rebalance_price := 26 / 25
    init_price := 26 / 25
    remove_liquidity_result := Except.error "timeout"
    close_hedge_result := Except.ok ()
    add_liquidity_result := Except.ok ()
    open_short_result := Except.ok "ord1" }

/-- A world where the hedge close (rebalance step 3) fails. -/
def envFail3 : Env :=
  { check_price := 26 / 25
    rebalance_price := 26 / 25
    init_price := 26 / 25
    remove_liquidity_result := Except.ok ()
    close_hedge_result := Except.error "rejected"
    add_liquidity_result := Except.ok ()
    open_short_result := Except.ok "ord1" }

/-- A world where every external call succeeds. -/
def envOk : Env :=
  { check_price := 26 / 25
    rebalance_price := 26 / 25
    init_price := 27 / 25
    remove_liquidity_result := Except.ok ()
    close_hedge_result := Except.ok ()
    add_liquidity_result := Except.ok ()
    open_short_result := Except.ok "ord1" }

/-- The position `rebalance_position` commits in the world `envOk`:
range derived from the fresh init-step price `27/25`. -/
def posOk' : PositionRec :=
  { lower_price := 513 / 500
    upper_price := 567 / 500
    sui_amount := 12500 / 27
    usdc_amount := 500
    hedge_ref := some "ord1"
    status := PStatus.Active }

/-- The event trace of the successful rebalance in `envOk`. -/
def evsOk : List Event :=
  [Event.removeLiquidity, Event.fetchPrice (26 / 25), Event.closeHedge,
   Event.initPosition, Event.fetchPrice (27 / 25), Event.addLiquidityCall,
   Event.openShort]

/-! ## Claims -/

/-- C1: for every position and fetched current price, the drift check
returns true iff `price ≤ lowerPrice * (1 + θ)` or
`price ≥ upperPrice * (1 - θ)` with `θ` the configured rebalance threshold,
and false otherwise. -/
theorem check_rebalance_condition_iff (cfg : Config) (pos : PositionRec)
    (price : ℚ) :
    check_rebalance_condition cfg pos price = true ↔
      price ≤ pos.lower_price * (1 + cfg.rebalance_threshold) ∨
        pos.upper_price * (1 - cfg.rebalance_threshold) ≤ price := by
  simp [check_rebalance_condition]

/-- C4: for positive price and capital and a range fraction in `(0, 1)`,
the range computation of rebalance step 2 returns
`(price * (1 - f), price * (1 + f))` and `calculate_swap_amounts` returns
`((capital * 0.5) / price, capital * 0.5)`. -/
theorem compute_range_and_amounts_spec (cfg : Config) (price : ℚ)
    (hp : 0 < price) (hc : 0 < cfg.base_amount)
    (hf0 : 0 < cfg.price_range) (hf1 : cfg.price_range < 1) :
    compute_new_range cfg price =
        (price * (1 - cfg.price_range), price * (1 + cfg.price_range)) ∧
      calculate_swap_amounts cfg price =
        Except.ok ((cfg.base_amount * (1 / 2)) / price,
                   cfg.base_amount * (1 / 2)) := by
  refine ⟨rfl, ?_⟩
  rw [calculate_swap_amounts, if_neg hp.ne']

/-- C4 witness: the scenario price 1, capital 1000, fraction 1/20. -/
theorem compute_range_and_amounts_spec_witness :
    compute_new_range cfgC 1 =
        (1 * (1 - cfgC.price_range), 1 * (1 + cfgC.price_range)) ∧
      calculate_swap_amounts cfgC 1 =
        Except.ok ((cfgC.base_amount * (1 / 2)) / 1,
                   cfgC.base_amount * (1 / 2)) :=
  compute_range_and_amounts_spec cfgC 1 (by norm_num) (by norm_num [cfgC])
    (by norm_num [cfgC]) (by norm_num [cfgC])

/-- C5 counterexample: at the negative price `-2` (so `price ≤ 0`) the
computation does not fail with `InvalidInput` — it happily returns a
result, with a negative pool-asset amount. -/
theorem calculate_swap_amounts_counterexample :
    calculate_swap_amounts cfgC (-2) = Except.ok (-250, 500) := by
  norm_num [calculate_swap_amounts, cfgC]

/-- C5 (amended): the source performs no input validation at all: for every
configuration and every price other than zero — negative prices, zero or
negative capital and an arbitrary range fraction included — it produces a
result; only the division at `price = 0` fails, and with a
`ZeroDivisionError`, not an `InvalidInput`. -/
theorem calculate_swap_amounts_no_validation (cfg : Config) (price : ℚ)
    (h : price ≠ 0) :
    calculate_swap_amounts cfg price =
        Except.ok ((cfg.base_amount * (1 / 2)) / price,
                   cfg.base_amount * (1 / 2)) ∧
      calculate_swap_amounts cfg 0 = Except.error "ZeroDivisionError" := by
  rw [calculate_swap_amounts, if_neg h]
  exact ⟨rfl, rfl⟩

/-- C5 amended witness: at price `-2`. -/
theorem calculate_swap_amounts_no_validation_witness :
    calculate_swap_amounts cfgC (-2) =
        Except.ok ((cfgC.base_amount * (1 / 2)) / (-2),
                   cfgC.base_amount * (1 / 2)) ∧
      calculate_swap_amounts cfgC 0 = Except.error "ZeroDivisionError" :=
  calculate_swap_amounts_no_validation cfgC (-2) (by norm_num)

/-- C6 counterexample: with a configured slippage tolerance of `1/100`, the
deposit submitted by `add_liquidity` carries slippage argument `0`, not the
configured value. -/
theorem add_liquidity_slippage_counterexample :
    cfgC.slippage_tolerance = 1 / 100 ∧
      (add_liquidity cfgC 500 500 (19 / 20) (21 / 20)).slippage = 0 ∧
      (add_liquidity cfgC 500 500 (19 / 20) (21 / 20)).slippage ≠
        cfgC.slippage_tolerance := by
  refine ⟨rfl, rfl, ?_⟩
  show (0 : ℚ) ≠ 1 / 100
  norm_num

/-- C6 (amended): the slippage argument of every pool deposit is the fixed
constant `0` (the literal `txer.pure(0)`), independent of the configured
slippage tolerance and of every other argument. -/
theorem add_liquidity_slippage_constant (cfg : Config)
    (sui_amount usdc_amount lower_tick upper_tick : ℚ) :
    (add_liquidity cfg sui_amount usdc_amount lower_tick upper_tick).slippage
      = 0 :=
  rfl

/-- C7: for positive price and capital and a fraction in `(0, 1)`, the
computed range brackets the price and the amounts preserve capital exactly:
`poolAssetAmount * price + pairedAssetAmount = capital`. -/
theorem compute_range_brackets_and_preserves_capital (cfg : Config)
    (price : ℚ) (hp : 0 < price) (hc : 0 < cfg.base_amount)
    (hf0 : 0 < cfg.price_range) (hf1 : cfg.price_range < 1) :
    (compute_new_range cfg price).1 < price ∧
      price < (compute_new_range cfg price).2 ∧
      ∀ sui_amount usdc_amount : ℚ,
        calculate_swap_amounts cfg price =
            Except.ok (sui_amount, usdc_amount) →
          sui_amount * price + usdc_amount = cfg.base_amount := by
  refine ⟨?_, ?_, ?_⟩
  · show price * (1 - cfg.price_range) < price
    nlinarith [mul_pos hp hf0]
  · show price < price * (1 + cfg.price_range)
    nlinarith [mul_pos hp hf0]
  · intro sui_amount usdc_amount h
    rw [calculate_swap_amounts, if_neg hp.ne'] at h
    obtain ⟨h1, h2⟩ := Prod.mk.injEq .. ▸ Except.ok.injEq .. ▸ h
    subst h1
    subst h2
    field_simp
    ring

/-- C7 witness: the scenario price 1, capital 1000, fraction 1/20. -/
theorem compute_range_brackets_witness :
    (compute_new_range cfgC 1).1 < 1 ∧
      (1 : ℚ) < (compute_new_range cfgC 1).2 ∧
      ∀ sui_amount usdc_amount : ℚ,
        calculate_swap_amounts cfgC 1 =
            Except.ok (sui_amount, usdc_amount) →
          sui_amount * 1 + usdc_amount = cfgC.base_amount :=
  compute_range_brackets_and_preserves_capital cfgC 1 (by norm_num)
    (by norm_num [cfgC]) (by norm_num [cfgC]) (by norm_num [cfgC])

/-- C8: for non-negative amounts the deposit is submitted with each amount
scaled by `10^decimals` and truncated toward zero, which on non-negative
inputs is the floor. -/
theorem add_liquidity_scaled_floor (cfg : Config)
    (sui_amount usdc_amount lower_tick upper_tick : ℚ)
    (hs : 0 ≤ sui_amount) (hu : 0 ≤ usdc_amount) :
    (add_liquidity cfg sui_amount usdc_amount lower_tick upper_tick).sui_scaled
        = ⌊sui_amount * 10 ^ cfg.sui_decimals⌋ ∧
      (add_liquidity cfg sui_amount usdc_amount lower_tick upper_tick).usdc_scaled
        = ⌊usdc_amount * 10 ^ cfg.usdc_decimals⌋ := by
  constructor <;>
    · show pyInt _ = _
      rw [pyInt, if_pos (by positivity)]

/-- C8 witness: amounts 3/2 and 500 at 9 and 6 decimals. -/
theorem add_liquidity_scaled_floor_witness :
    (add_liquidity cfgC (3 / 2) 500 (19 / 20) (21 / 20)).sui_scaled
        = ⌊(3 / 2 : ℚ) * 10 ^ cfgC.sui_decimals⌋ ∧
      (add_liquidity cfgC (3 / 2) 500 (19 / 20) (21 / 20)).usdc_scaled
        = ⌊(500 : ℚ) * 10 ^ cfgC.usdc_decimals⌋ :=
  add_liquidity_scaled_floor cfgC (3 / 2) 500 (19 / 20) (21 / 20)
    (by norm_num) (by norm_num)

/-- C9: when the order placement fails with any exception, `execute_hedge`
catches it, sends exactly one alert, and returns `None`; on success it
returns the order id and sends no alert — so the caller sees no exception
either way and only the `None` distinguishes failure. -/
theorem execute_hedge_swallows_errors (e oid : String) :
    execute_hedge (Except.error e) = (none, ["对冲订单失败: " ++ e]) ∧
      execute_hedge (Except.ok oid) = (some oid, []) :=
  ⟨rfl, rfl⟩

/-! ## Helper lemmas on the rebalance flow (shared, not claim theorems) -/

/-- When step (1) or step (3) fails, `rebalance_position` propagates the
error and its trace never reaches the recreation step. -/
theorem rebalance_position_fail_inv (cfg : Config) (env : Env)
    (pos : PositionRec)
    (hfail : (∃ e, env.remove_liquidity_result = Except.error e) ∨
             (∃ e, env.close_hedge_result = Except.error e)) :
    ∃ e evs, rebalance_position cfg env pos = (Except.error e, evs) ∧
      Event.initPosition ∉ evs := by
  rcases hfail with ⟨e, he⟩ | ⟨e, he⟩
  · exact ⟨e, [Event.removeLiquidity],
      by simp [rebalance_position, he], by simp⟩
  · rcases hrm : env.remove_liquidity_result with e' | u
    · exact ⟨e', [Event.removeLiquidity],
        by simp [rebalance_position, hrm], by simp⟩
    · exact ⟨e, [Event.removeLiquidity, Event.fetchPrice env.rebalance_price,
                 Event.closeHedge],
        by simp [rebalance_position, hrm, he], by simp⟩

/-- Every trace of the (spec-modelled) recreation step starts with the
recreation marker event. -/
theorem init_position_trace_head (cfg : Config) (env : Env) :
    ((init_position cfg env).2).head? = some Event.initPosition := by
  rcases hc : calculate_swap_amounts cfg env.init_price with e | ⟨s, u⟩ <;>
    rcases ha : env.add_liquidity_result with e' | u' <;>
      rcases ho : env.open_short_result with e2 | oid <;>
        simp [init_position, execute_hedge, hc, ha, ho]

/-- A position committed by the (spec-modelled) recreation step carries the
range derived from the price fetched inside that step. -/
theorem init_position_ok_range (cfg : Config) (env : Env) (q : PositionRec)
    (evs0 : List Event) (h : init_position cfg env = (Except.ok q, evs0)) :
    q.lower_price = env.init_price * (1 - cfg.price_range) ∧
      q.upper_price = env.init_price * (1 + cfg.price_range) := by
  rcases hc : calculate_swap_amounts cfg env.init_price with e | ⟨s, u⟩ <;>
    rcases ha : env.add_liquidity_result with e' | u' <;>
      rcases ho : env.open_short_result with e2 | oid <;>
        simp [init_position, execute_hedge, hc, ha, ho] at h <;>
          simp [← h.1]

/-- The recreation step reads nothing of the step-2 price: replacing it
changes nothing in the recreation's outcome. -/
theorem init_position_step2_price_irrel (cfg : Config) (env : Env) (p' : ℚ) :
    init_position cfg { env with rebalance_price := p' }
      = init_position cfg env :=
  rfl

/-- The value of `rebalance_position` when all three submissions succeed. -/
theorem rebalance_position_ok_result (cfg : Config) (env : Env)
    (pos : PositionRec) (u u2 : Unit) (q : PositionRec) (evs0 : List Event)
    (hrm : env.remove_liquidity_result = Except.ok u)
    (hcl : env.close_hedge_result = Except.ok u2)
    (hi : init_position cfg env = (Except.ok q, evs0)) :
    rebalance_position cfg env pos
      = (Except.ok q,
         [Event.removeLiquidity, Event.fetchPrice env.rebalance_price,
          Event.closeHedge] ++ evs0) := by
  simp [rebalance_position, hrm, hcl, hi]

/-- Inversion: a successful `rebalance_position` means all three
submissions succeeded, the committed position is the recreation step's, and
the trace is teardown, price fetch, hedge close, then the recreation's
events. -/
theorem rebalance_position_ok_inv (cfg : Config) (env : Env)
    (pos pos' : PositionRec) (evs : List Event)
    (h : rebalance_position cfg env pos = (Except.ok pos', evs)) :
    (∃ u, env.remove_liquidity_result = Except.ok u) ∧
      (∃ u, env.close_hedge_result = Except.ok u) ∧
      ∃ evs0, init_position cfg env = (Except.ok pos', evs0) ∧
        evs = [Event.removeLiquidity, Event.fetchPrice env.rebalance_price,
               Event.closeHedge] ++ evs0 := by
  rcases hrm : env.remove_liquidity_result with e | u
  · have hv : rebalance_position cfg env pos
        = (Except.error e, [Event.removeLiquidity]) := by
      simp [rebalance_position, hrm]
    rw [hv] at h
    simp at h
  · rcases hcl : env.close_hedge_result with e | u2
    · have hv : rebalance_position cfg env pos
          = (Except.error e,
             [Event.removeLiquidity, Event.fetchPrice env.rebalance_price,
              Event.closeHedge]) := by
        simp [rebalance_position, hrm, hcl]
      rw [hv] at h
      simp at h
    · rcases hi : init_position cfg env with ⟨r, evs0⟩
      rcases r with e | q
      · have hv : rebalance_position cfg env pos
            = (Except.error e,
               [Event.removeLiquidity, Event.fetchPrice env.rebalance_price,
                Event.closeHedge] ++ evs0) := by
          simp [rebalance_position, hrm, hcl, hi]
        rw [hv] at h
        simp at h
      · have hv : rebalance_position cfg env pos
            = (Except.ok q,
               [Event.removeLiquidity, Event.fetchPrice env.rebalance_price,
                Event.closeHedge] ++ evs0) :=
          rebalance_position_ok_result cfg env pos u u2 q evs0 hrm hcl hi
        rw [hv] at h
        injection h with h1 h2
        injection h1 with hq
        exact ⟨⟨u, rfl⟩, ⟨u2, rfl⟩, evs0, by rw [hq], h2.symm⟩

/-- Evaluation of the successful rebalance in the concrete world `envOk`. -/
theorem rebalance_eval_envOk :
    rebalance_position cfgC envOk posC = (Except.ok posOk', evsOk) := by
  norm_num [rebalance_position, init_position, execute_hedge,
            calculate_swap_amounts, envOk, cfgC, posOk', evsOk]

/-- C2 counterexample: in a run where the drift check fires and step (1)
`remove_liquidity` fails, the position record afterwards is unchanged —
in particular its status is still `Active`, not `Faulted`: the source never
writes a Faulted status (it has no status handling in
`rebalance_position` at all). -/
theorem rebalance_fault_status_counterexample :
    check_rebalance_condition cfgC posC envFail1.check_price = true ∧
      envFail1.remove_liquidity_result = Except.error "timeout" ∧
      (main_loop_iter cfgC envFail1 posC).1 = posC ∧
      (main_loop_iter cfgC envFail1 posC).1.status ≠ PStatus.Faulted := by
  have hche : check_rebalance_condition cfgC posC envFail1.check_price
      = true := by
    norm_num [check_rebalance_condition, cfgC, posC, envFail1]
  have hre : rebalance_position cfgC envFail1 posC
      = (Except.error "timeout", [Event.removeLiquidity]) := by
    simp [rebalance_position, envFail1]
  have hm : (main_loop_iter cfgC envFail1 posC).1 = posC := by
    unfold main_loop_iter
    rw [if_pos hche, hre]
  exact ⟨hche, rfl, hm, by rw [hm]; simp [posC]⟩

/-- C2 (amended): if step (1) `remove_liquidity` or step (3)
`close_hedge_position` fails during a triggered rebalance, the exception
propagates out of `rebalance_position`, so the recreation step (4) is never
called and the rebalance is aborted; the main loop's catch-all emits an
alert.  The position record, however, is left exactly as it was — no
`Faulted` status is written, because the source maintains no status
field. -/
theorem rebalance_step_failure_aborts (cfg : Config) (env : Env)
    (pos : PositionRec)
    (hcheck : check_rebalance_condition cfg pos env.check_price = true)
    (hfail : (∃ e, env.remove_liquidity_result = Except.error e) ∨
             (∃ e, env.close_hedge_result = Except.error e)) :
    (main_loop_iter cfg env pos).1 = pos ∧
      Event.initPosition ∉ (main_loop_iter cfg env pos).2 ∧
      ∃ msg, Event.alert msg ∈ (main_loop_iter cfg env pos).2 := by
  obtain ⟨e, evs, hre, hni⟩ := rebalance_position_fail_inv cfg env pos hfail
  have hm : main_loop_iter cfg env pos
      = (pos, Event.fetchPrice env.check_price :: evs
                ++ [Event.alert ("系统错误: " ++ e)]) := by
    unfold main_loop_iter
    rw [if_pos hcheck, hre]
  rw [hm]
  refine ⟨rfl, ?_, ⟨"系统错误: " ++ e, by simp⟩⟩
  simp [hni]

/-- C2 amended witness: a failing hedge close in the world `envFail3`. -/
theorem rebalance_step_failure_aborts_witness :
    (main_loop_iter cfgC envFail3 posC).1 = posC ∧
      Event.initPosition ∉ (main_loop_iter cfgC envFail3 posC).2 ∧
      ∃ msg, Event.alert msg ∈ (main_loop_iter cfgC envFail3 posC).2 :=
  rebalance_step_failure_aborts cfgC envFail3 posC
    (by norm_num [check_rebalance_condition, cfgC, posC, envFail3])
    (Or.inr ⟨"rejected", rfl⟩)

/-- C3: every successful run of `rebalance_position` produces exactly the
trace: liquidity withdrawal, then the step-2 price fetch (the range
recomputation), then the hedge close, and only then the recreation step's
events, which begin with the recreation marker — so the pool teardown
precedes the hedge close and recreation comes last. -/
theorem rebalance_position_step_order (cfg : Config) (env : Env)
    (pos pos' : PositionRec) (evs : List Event)
    (h : rebalance_position cfg env pos = (Except.ok pos', evs)) :
    evs = [Event.removeLiquidity, Event.fetchPrice env.rebalance_price,
           Event.closeHedge] ++ (init_position cfg env).2 ∧
      ((init_position cfg env).2).head? = some Event.initPosition := by
  refine ⟨?_, init_position_trace_head cfg env⟩
  obtain ⟨-, -, evs0, hi, hevs⟩ :=
    rebalance_position_ok_inv cfg env pos pos' evs h
  rw [hevs, hi]

/-- C3 witness: the concrete all-successful world `envOk`. -/
theorem rebalance_position_step_order_witness :
    evsOk = [Event.removeLiquidity, Event.fetchPrice envOk.rebalance_price,
             Event.closeHedge] ++ (init_position cfgC envOk).2 ∧
      ((init_position cfgC envOk).2).head? = some Event.initPosition :=
  rebalance_position_step_order cfgC envOk posC posOk' evsOk
    rebalance_eval_envOk

/-- C10: the range a successful rebalance commits is derived from the fresh
price fetched inside the recreation step, not from the `new_lower` and
`new_upper` computed in step 2 — those are dead: replacing the step-2 price
by anything leaves the committed position unchanged. -/
theorem rebalance_committed_range_fresh (cfg : Config) (env : Env)
    (pos pos' : PositionRec) (evs : List Event) (p' : ℚ)
    (h : rebalance_position cfg env pos = (Except.ok pos', evs)) :
    pos'.lower_price = env.init_price * (1 - cfg.price_range) ∧
      pos'.upper_price = env.init_price * (1 + cfg.price_range) ∧
      (rebalance_position cfg { env with rebalance_price := p' } pos).1
        = Except.ok pos' := by
  obtain ⟨⟨u, hrm⟩, ⟨u2, hcl⟩, evs0, hi, hevs⟩ :=
    rebalance_position_ok_inv cfg env pos pos' evs h
  obtain ⟨hl, hu⟩ := init_position_ok_range cfg env pos' evs0 hi
  refine ⟨hl, hu, ?_⟩
  have hrm2 : ({ env with rebalance_price := p' } : Env).remove_liquidity_result
      = Except.ok u := hrm
  have hcl2 : ({ env with rebalance_price := p' } : Env).close_hedge_result
      = Except.ok u2 := hcl
  have hi2 : init_position cfg { env with rebalance_price := p' }
      = (Except.ok pos', evs0) := by
    rw [init_position_step2_price_irrel]
    exact hi
  rw [rebalance_position_ok_result cfg { env with rebalance_price := p' }
        pos u u2 pos' evs0 hrm2 hcl2 hi2]

/-- C10 witness: in `envOk`, the committed range comes from the init-step
price `27/25`, and overwriting the step-2 price with `13/10` changes
nothing. -/
theorem rebalance_committed_range_fresh_witness :
    posOk'.lower_price = envOk.init_price * (1 - cfgC.price_range) ∧
      posOk'.upper_price = envOk.init_price * (1 + cfgC.price_range) ∧
      (rebalance_position cfgC
          { envOk with rebalance_price := 13 / 10 } posC).1
        = Except.ok posOk' :=
  rebalance_committed_range_fresh cfgC envOk posC posOk' evsOk (13 / 10)
    rebalance_eval_envOk

end CetusHedge
